import Mathlib

/-!
Shallow embedding of `src/release_folder.py` (an Ansible module managing a
Capistrano-style release folder) together with proofs about the claims of
the specification.

Modelling choices:
* A filesystem path is a list of name components (`Path`); the base path of
  the module is already expanded/canonicalized (line 131 of the source does
  `os.path.realpath(os.path.expanduser(path))`), so it is taken as a given
  component list.
* The filesystem is a finite association list from paths to nodes
  (directory, regular file, or symlink).  Symlink targets are stored as
  absolute component paths; the module itself only ever creates absolute
  targets (`os.symlink(release_dir, symlink_dir)` with `release_dir`
  absolute).  `os.path.join(path, t)` with an absolute `t` returns `t`,
  which is how the report step is modelled.
* `os.path.isdir` / `os.path.exists` follow symlinks at the final
  component (with the usual kernel bound on chained links);
  `os.path.islink` does not.  Intermediate components are taken literally,
  matching this module's usage where the base and releases directories are
  plain directories.
* Python-level dynamic typing is modelled with `Option`: `pfx = none`
  stands for a non-string value of the `prefix` parameter (the name
  `prefix` itself is a Lean keyword, hence `pfx`), `timestamp = none` for a
  missing or non-string timestamp, `symlink = none` for an absent symlink
  parameter.  An uncaught Python exception is the `Outcome.crash`
  constructor; `module.fail_json` is `Outcome.failed` and
  `module.exit_json` is `Outcome.ok`.
* Python 2 dictionaries carry no usable ordering, so `symlinked_folders`
  is modelled as an association list with most-recent-write-first
  representation; only its map behaviour is relevant.
-/

namespace ReleaseFolder

/-- A filesystem path as a list of name components. -/
abbrev Path := List String

/-- A filesystem node: directory, regular file, or symbolic link with its
raw target. -/
inductive Node
  | dir : Node
  | file : Node
  | link : Path → Node
deriving DecidableEq

/-- The filesystem: a finite association list from paths to nodes. -/
structure FS where
  entries : List (Path × Node)
deriving DecidableEq

/-- Association-list lookup of a path in the filesystem table. -/
def lookupPath : List (Path × Node) → Path → Option Node
  | [], _ => none
  | e :: es, p => if e.1 = p then some e.2 else lookupPath es p

/-- Node stored at a path, not following symlinks (the `lstat` view). -/
def FS.find (fs : FS) (p : Path) : Option Node :=
  lookupPath fs.entries p

/-- Kernel bound on chained symbolic links (SYMLOOP_MAX-like fuel). -/
def maxSymlinkHops : Nat := 40

/-- Resolve the final component of a path, following chained symlinks with
the given fuel. -/
def FS.resolve (fs : FS) : Nat → Path → Option Node
  | 0, _ => none
  | fuel + 1, p =>
    match fs.find p with
    | some (Node.link t) => fs.resolve fuel t
    | some n => some n
    | none => none

/-- Model of `os.path.exists`: true iff the path resolves (following
symlinks) to an existing node; false on a broken link. -/
def FS.pexists (fs : FS) (p : Path) : Bool :=
  (fs.resolve maxSymlinkHops p).isSome

/-- Model of `os.path.isdir`: follows symlinks. -/
def FS.isdir (fs : FS) (p : Path) : Bool :=
  match fs.resolve maxSymlinkHops p with
  | some Node.dir => true
  | _ => false

/-- Model of `os.path.islink`: true iff the node at the path itself is a
symlink (never follows). -/
def FS.islink (fs : FS) (p : Path) : Bool :=
  match fs.find p with
  | some (Node.link _) => true
  | _ => false

/-- Model of `os.readlink`: the raw target when the node is a symlink,
`none` otherwise (the OSError case, always caught by the callers in the
source with a bare `except`). -/
def FS.readlink (fs : FS) (p : Path) : Option Path :=
  match fs.find p with
  | some (Node.link t) => some t
  | _ => none

/-- Model of `os.listdir`: names of the immediate children of a path. -/
def FS.listdir (fs : FS) (p : Path) : List String :=
  (fs.entries.filter (fun e => !e.1.isEmpty && decide (e.1.dropLast = p))).map
    (fun e => e.1.getLastD "")

/-- The nonempty initial segments of a path, shortest first. -/
def initialsOf (p : Path) : List Path :=
  (List.range p.length).map (fun i => p.take (i + 1))

/-- Model of `os.makedirs`: errors when the leaf already exists (in any
form) or an ancestor exists as a non-directory; otherwise creates every
missing ancestor and the leaf as directories. -/
def FS.makedirs (fs : FS) (p : Path) : Except String FS :=
  if (fs.find p).isSome then Except.error "EEXIST"
  else if (initialsOf p.dropLast).any (fun q =>
      match fs.find q with
      | some Node.dir => false
      | some _ => true
      | none => false) then Except.error "ENOTDIR"
  else Except.ok
    ⟨fs.entries ++ ((initialsOf p).filter (fun q => (fs.find q).isNone)).map
      (fun q => (q, Node.dir))⟩

/-- Lines 106-108 of the source: `ensure_dir` creates the path unless
`os.path.exists` already holds. -/
def ensure_dir (fs : FS) (p : Path) : Except String FS :=
  if fs.pexists p then Except.ok fs else fs.makedirs p

/-- Whether `q` equals `p` or lies strictly below it. -/
def isUnderOrEq (p q : Path) : Bool :=
  decide (q.take p.length = p)

/-- Model of `shutil.rmtree`: removes the whole subtree rooted at a plain
directory; errors on a missing path, a file or a symlink. -/
def FS.rmtree (fs : FS) (p : Path) : Except String FS :=
  match fs.find p with
  | some Node.dir => Except.ok ⟨fs.entries.filter (fun e => !isUnderOrEq p e.1)⟩
  | _ => Except.error "rmtree"

/-- Model of `os.unlink` as used at line 243 of the source (only ever
called on a path known to be a symlink). -/
def FS.unlink (fs : FS) (p : Path) : FS :=
  ⟨fs.entries.filter (fun e => !decide (e.1 = p))⟩

/-- Model of `os.symlink target linkpath`: errors when the link path is
already occupied, otherwise records the new symlink. -/
def FS.symlinkNew (fs : FS) (target linkpath : Path) : Except String FS :=
  if (fs.find linkpath).isSome then Except.error "EEXIST"
  else Except.ok ⟨fs.entries ++ [(linkpath, Node.link target)]⟩

/-- Model of `os.path.basename` on a component path: its last component
(empty string for the empty path). -/
def basename (p : Path) : String :=
  p.getLastD ""

/-- Rendering of a component path as the absolute path string used in the
source's error messages. -/
def pathStr (p : Path) : String :=
  "/" ++ String.intercalate "/" p

/-- Character-list prefix test. -/
def listIsPrefixB : List Char → List Char → Bool
  | [], _ => true
  | _ :: _, [] => false
  | a :: as, b :: bs => a == b && listIsPrefixB as bs

/-- Model of Python's `str.startswith` (and of `String.startsWith`):
the first string is the candidate, the second the prefix. -/
def strStartsWith (s pfx : String) : Bool :=
  listIsPrefixB pfx.data s.data

/-- Lines 94-104 of the source, `get_releases`: list the entries of
`path/subfolder` and keep a name iff it starts with the prefix, is a
directory, and is not a symlink.  The function only reads the filesystem
(it takes `fs` and returns a list of names), so enumeration has no side
effects by construction. -/
def get_releases (fs : FS) (path : Path) (subfolder pfx : String) : List String :=
  (fs.listdir (path ++ [subfolder])).filter (fun file =>
    strStartsWith file pfx && fs.isdir (path ++ [subfolder, file])
      && !fs.islink (path ++ [subfolder, file]))

/-- The result record of `module.exit_json` (line 265 of the source). -/
structure ModuleResult where
  changed : Bool
  removed_releases : List String
  absolute_path : Path
  symlinked_folders : List (String × Option Path)
  releases : List String
  releases_path : Path
deriving DecidableEq

/-- How one invocation of the module terminates. -/
inductive Outcome
  | ok : ModuleResult → Outcome
  | failed : String → Outcome
  | crash : String → Outcome
deriving DecidableEq

/-- The module parameters after Ansible argument parsing (lines 112-155 of
the source).  `pfx = none` models a non-string value of the `prefix`
parameter; `timestamp = none` models a missing or non-string timestamp;
`check_mode` is Ansible's dry-run flag. -/
structure Params where
  path : Path
  pfx : Option String
  subfolder : String
  keep : Int
  keep_symlinked_dirs : Bool
  symlink_dirs : List String
  state : Option String
  timestamp : Option String
  symlink : Option String
  check_mode : Bool
deriving DecidableEq

/-- Lines 171-174 of the source: a truthy `symlink` parameter is appended
to `symlink_dirs` when not already present. -/
def effectiveSymlinkDirs (sds : List String) (symlink : Option String) : List String :=
  match symlink with
  | some s => if s ≠ "" && !sds.contains s then sds ++ [s] else sds
  | none => sds

/-- Lines 182-188 of the source: for each watched symlink name, read the
link under the base path and drop the basename of its raw target from the
candidate list; a failing `readlink` (or an absent candidate) is silently
ignored by the bare `except`. -/
def protect (fs : FS) (path : Path) (sds : List String) (cands : List String) :
    List String :=
  sds.foldl (fun acc name =>
    match fs.readlink (path ++ [name]) with
    | some t => acc.erase (basename t)
    | none => acc) cands

/-- Lexicographic less-or-equal on character lists by code point,
mirroring Python 2's byte-wise string comparison (identical on the ASCII
names this module handles). -/
def listLeB : List Char → List Char → Bool
  | [], _ => true
  | _ :: _, [] => false
  | a :: as, b :: bs =>
    if a.toNat < b.toNat then true
    else if b.toNat < a.toNat then false
    else listLeB as bs

/-- Lexicographic less-or-equal on strings (Python's `<=`). -/
def strLe (a b : String) : Bool :=
  listLeB a.data b.data

/-- Line 191 of the source: sort descending (Python `sorted(l, reverse=True)`
on strings). -/
def sortDescend (l : List String) : List String :=
  List.insertionSort (fun a b : String => strLe b a = true) l

/-- Line 191 of the source: the suffix of the descending sort starting at
index `keep` is marked for removal. -/
def selectForRemoval (cands : List String) (keep : Nat) : List String :=
  (sortDescend cands).drop keep

/-- Lines 194-203 of the source: delete each marked directory in turn,
failing (`fail_json`) on the first `rmtree` error. -/
def deleteDirs (fs : FS) (path : Path) (sub : String) :
    List String → Except (FS × Outcome) FS
  | [] => Except.ok fs
  | d :: ds =>
    match fs.rmtree (path ++ [sub, d]) with
    | Except.ok fs' => deleteDirs fs' path sub ds
    | Except.error _ =>
      Except.error (fs, Outcome.failed
        ("Could not remove directory " ++ pathStr (path ++ [sub, d])))

/-- Lines 176-205 of the source, the `state == 'cleaned'` branch.  Returns
the filesystem, the removal list and the `changed` flag; `os.listdir`
raising on a missing or non-directory releases path is an uncaught
exception (crash). -/
def cleanOp (cm ksd : Bool) (fs : FS) (path : Path) (sub pfx : String)
    (sds : List String) (keep : Nat) :
    Except (FS × Outcome) (FS × List String × Bool) :=
  if !fs.isdir (path ++ [sub]) then
    Except.error (fs, Outcome.crash "OSError: os.listdir")
  else
    let cands := get_releases fs path sub pfx
    let cands := if ksd then protect fs path sds cands else cands
    let dirs_to_remove := selectForRemoval cands keep
    match (if !cm then deleteDirs fs path sub dirs_to_remove else Except.ok fs) with
    | Except.error e => Except.error e
    | Except.ok fs' => Except.ok (fs', dirs_to_remove, decide (dirs_to_remove.length > 0))

/-- Lines 207-249 of the source, the `state == 'exists'` branch.  Note two
faithful quirks of the source: `os.makedirs` at line 227 is not guarded by
check mode, and the unlink/symlink block at lines 240-247 sits outside
`if symlink:`, so with a falsy `symlink` parameter and check mode off the
local `symlink_dir` is unbound and Python raises `UnboundLocalError`. -/
def createOp (cm : Bool) (fs : FS) (path : Path) (sub pfx : String)
    (timestamp symlink : Option String) : Except (FS × Outcome) (FS × Bool) :=
  match timestamp with
  | none => Except.error (fs, Outcome.failed "Invalid timestamp parameter")
  | some ts =>
    if ts = "" then Except.error (fs, Outcome.failed "Invalid timestamp parameter")
    else
      -- line 214: with `symlink` modelled as `Option String` the
      -- `isinstance(symlink, basestring)` check always passes
      let release_dir := path ++ [sub, pfx ++ ts]
      if fs.pexists release_dir && !fs.isdir release_dir then
        Except.error (fs, Outcome.failed
          ("Release directory exists,but is not a directory: " ++ pathStr release_dir))
      else
        match (if !fs.pexists release_dir then
                 match fs.makedirs release_dir with
                 | Except.ok fs' => Except.ok fs'
                 | Except.error _ =>
                   Except.error (fs, Outcome.failed
                     ("Error creating release directory: " ++ pathStr release_dir))
               else Except.ok fs : Except (FS × Outcome) FS) with
        | Except.error e => Except.error e
        | Except.ok fs =>
          match (match symlink with
                 | some s =>
                   if s ≠ "" then
                     let symlink_dir := path ++ [s]
                     if fs.pexists symlink_dir && !fs.islink symlink_dir then
                       Except.error (fs, Outcome.failed
                         ("Symlink exists but is not a symlink: " ++ pathStr symlink_dir))
                     else Except.ok (some symlink_dir)
                   else Except.ok none
                 | none => Except.ok none : Except (FS × Outcome) (Option Path)) with
          | Except.error e => Except.error e
          | Except.ok osd =>
            if !cm then
              match osd with
              | none => Except.error (fs, Outcome.crash "UnboundLocalError: symlink_dir")
              | some symlink_dir =>
                let fs := if fs.islink symlink_dir then fs.unlink symlink_dir else fs
                let release_dir := path ++ [sub, pfx ++ ts]
                match fs.symlinkNew release_dir symlink_dir with
                | Except.ok fs' => Except.ok (fs', true)
                | Except.error _ =>
                  Except.error (fs, Outcome.failed "Error creating symlink")
            else Except.ok (fs, true)

/-- Replace or add one key in the `symlinked_folders` dictionary (Python 2
dict assignment; only the map behaviour is observable). -/
def dictSet (d : List (String × Option Path)) (k : String) (v : Option Path) :
    List (String × Option Path) :=
  (k, v) :: d.filter (fun e => !decide (e.1 = k))

/-- Dictionary lookup in `symlinked_folders`. -/
def dictGet (d : List (String × Option Path)) (k : String) : Option (Option Path) :=
  (d.find? (fun e => decide (e.1 = k))).map (fun e => e.2)

/-- Lines 258-263 of the source: map every watched symlink name to its
target (`os.path.join(path, os.readlink(...))`, which is the raw absolute
target in this model) or to `None` when `readlink` fails. -/
def gatherSymlinks (fs : FS) (path : Path) (sds : List String) :
    List (String × Option Path) :=
  sds.foldl (fun acc name => dictSet acc name (fs.readlink (path ++ [name]))) []

/-- Lines 251-263 of the source: the report step, run only when the
directories were found to exist; `os.listdir` on a non-directory releases
path is an uncaught exception. -/
def reportOp (fs : FS) (path : Path) (sub pfx : String) (sds : List String) :
    Except (FS × Outcome) (List String × List (String × Option Path)) :=
  if !fs.isdir (path ++ [sub]) then
    Except.error (fs, Outcome.crash "OSError: os.listdir")
  else
    Except.ok (get_releases fs path sub pfx, gatherSymlinks fs path sds)

/-- Lines 110-265 of the source, the module's `main`, as a function from
parameters and pre-state to post-state and outcome.  The stages appear in
source order: parameter validation (lines 127-155), structural setup
(163-169), symlink-dirs extension (171-174), the cleaned branch (176-205),
the exists branch (207-249), and the report (251-265). -/
def pyMain (pr : Params) (fs0 : FS) : FS × Outcome :=
  match pr.pfx with
  | none => (fs0, Outcome.failed "Invalid prefix parameter")
  | some pfx =>
  if pr.keep < 0 then (fs0, Outcome.failed "Invalid keep parameter")
  else
  let path := pr.path
  let sub := pr.subfolder
  match (if !pr.check_mode then
           match ensure_dir fs0 path with
           | Except.error _ => Except.error (fs0, Outcome.crash "OSError: os.makedirs")
           | Except.ok fs1 =>
             match ensure_dir fs1 (path ++ [sub]) with
             | Except.error _ => Except.error (fs1, Outcome.crash "OSError: os.makedirs")
             | Except.ok fs2 => Except.ok (fs2, true)
         else Except.ok (fs0, fs0.pexists path && fs0.pexists (path ++ [sub]))
         : Except (FS × Outcome) (FS × Bool)) with
  | Except.error e => e
  | Except.ok (fs, directories_exist) =>
  let sds := effectiveSymlinkDirs pr.symlink_dirs pr.symlink
  match (if pr.state = some "cleaned" then
           cleanOp pr.check_mode pr.keep_symlinked_dirs fs path sub pfx sds pr.keep.toNat
         else Except.ok (fs, [], false)) with
  | Except.error e => e
  | Except.ok (fs, dirs_to_remove, changed) =>
  match (if pr.state = some "exists" then
           createOp pr.check_mode fs path sub pfx pr.timestamp pr.symlink
         else Except.ok (fs, changed)) with
  | Except.error e => e
  | Except.ok (fs, changed) =>
  match (if directories_exist then reportOp fs path sub pfx sds
         else Except.ok ([], [])) with
  | Except.error e => e
  | Except.ok (existing_dirs, symlinked_folders) =>
    (fs, Outcome.ok
      { changed := changed
        removed_releases := dirs_to_remove
        absolute_path := path
        symlinked_folders := symlinked_folders
        releases := existing_dirs
        releases_path := path ++ [sub] })

/-! ### Concrete scenarios used by the claim theorems -/

/-- The empty filesystem. -/
def emptyFS : FS := ⟨[]⟩

/-- A dry-run (check mode) create invocation on the base path `/app`. -/
def dryRunCreateParams : Params :=
  { path := ["app"]
    pfx := some "release-"
    subfolder := "releases"
    keep := 5
    keep_symlinked_dirs := true
    symlink_dirs := []
    state := some "exists"
    timestamp := some "20240101090000"
    symlink := none
    check_mode := true }

/-- A non-dry-run create invocation with no `symlink` parameter. -/
def createNoSymlinkParams : Params :=
  { dryRunCreateParams with timestamp := some "20240202101010", check_mode := false }

/-- A non-dry-run create invocation with no `symlink` parameter, run twice
for the idempotency claim. -/
def createTwiceParams : Params :=
  { dryRunCreateParams with
    path := ["srv"]
    timestamp := some "20240404"
    check_mode := false }

/-- A non-dry-run create invocation whose `timestamp` parameter is
missing. -/
def missingTimestampParams : Params :=
  { dryRunCreateParams with timestamp := none, check_mode := false }

/-- A filesystem where the watched symlink `current` points at
`/elsewhere/release-1`: a target outside the releases subfolder that does
not even exist, while `release-1` is a release. -/
def outsideLinkFS : FS :=
  ⟨[(["app"], Node.dir), (["app", "releases"], Node.dir),
    (["app", "releases", "release-1"], Node.dir),
    (["app", "current"], Node.link ["elsewhere", "release-1"])]⟩

/-- A clean invocation with `keep = 0`, protection on, watching `current`. -/
def cleanProtectParams : Params :=
  { dryRunCreateParams with
    keep := 0
    symlink_dirs := ["current"]
    state := some "cleaned"
    timestamp := none
    check_mode := false }

/-- The protection-correctness scenario of the specification: releases
`release-1`, `release-2`, `release-3` and a symlink `current` resolving to
`release-2` inside the releases subfolder. -/
def protectScenarioFS : FS :=
  ⟨[(["app"], Node.dir), (["app", "releases"], Node.dir),
    (["app", "releases", "release-1"], Node.dir),
    (["app", "releases", "release-2"], Node.dir),
    (["app", "releases", "release-3"], Node.dir),
    (["app", "current"], Node.link ["app", "releases", "release-2"])]⟩

/-- A filesystem where `/app/current` is occupied by a regular file while
no release directory exists yet for the requested timestamp (the fresh
create-and-conflict case). -/
def conflictFS : FS :=
  ⟨[(["app"], Node.dir), (["app", "releases"], Node.dir),
    (["app", "current"], Node.file)]⟩

/-- A non-dry-run create invocation that asks for the symlink `current`. -/
def conflictParams : Params :=
  { dryRunCreateParams with
    timestamp := some "20240101"
    symlink := some "current"
    check_mode := false }

/-! ### Helper lemmas shared by the claim theorems -/

/-- The lexicographic comparison is total. -/
theorem listLeB_total : ∀ as bs : List Char, listLeB as bs = true ∨ listLeB bs as = true
  | [], _ => Or.inl rfl
  | _ :: _, [] => Or.inr rfl
  | a :: as, b :: bs => by
    by_cases h1 : a.toNat < b.toNat
    · left; simp [listLeB, h1]
    · by_cases h2 : b.toNat < a.toNat
      · right; simp [listLeB, h2]
      · rcases listLeB_total as bs with h | h
        · left; simp [listLeB, h1, h2, h]
        · right; simp [listLeB, h1, h2, h]

/-- The lexicographic comparison is transitive. -/
theorem listLeB_trans : ∀ as bs cs : List Char,
    listLeB as bs = true → listLeB bs cs = true → listLeB as cs = true
  | [], _, _ => fun _ _ => rfl
  | _ :: _, [], _ => fun h _ => by cases h
  | _ :: _, _ :: _, [] => fun _ h => by cases h
  | a :: as, b :: bs, c :: cs => by
    intro h1 h2
    by_cases hab : a.toNat < b.toNat <;> by_cases hbc : b.toNat < c.toNat
    · simp [listLeB, Nat.lt_trans hab hbc]
    · by_cases hcb : c.toNat < b.toNat
      · simp [listLeB, hbc, hcb] at h2
      · have hbceq : b.toNat = c.toNat :=
          Nat.le_antisymm (Nat.not_lt.mp hcb) (Nat.not_lt.mp hbc)
        simp [listLeB, hbceq ▸ hab]
    · by_cases hba : b.toNat < a.toNat
      · simp [listLeB, hab, hba] at h1
      · have habeq : a.toNat = b.toNat :=
          Nat.le_antisymm (Nat.not_lt.mp hba) (Nat.not_lt.mp hab)
        simp [listLeB, habeq ▸ hbc]
    · by_cases hba : b.toNat < a.toNat
      · simp [listLeB, hab, hba] at h1
      · by_cases hcb : c.toNat < b.toNat
        · simp [listLeB, hbc, hcb] at h2
        · have habeq : a.toNat = b.toNat :=
            Nat.le_antisymm (Nat.not_lt.mp hba) (Nat.not_lt.mp hab)
          have hbceq : b.toNat = c.toNat :=
            Nat.le_antisymm (Nat.not_lt.mp hcb) (Nat.not_lt.mp hbc)
          simp [listLeB, hab, hba, hbc, hcb] at h1 h2
          have hac : ¬a.toNat < c.toNat := by rw [habeq, hbceq]; exact Nat.lt_irrefl _
          have hca : ¬c.toNat < a.toNat := by rw [habeq, hbceq]; exact Nat.lt_irrefl _
          simp [listLeB, hac, hca, listLeB_trans as bs cs h1 h2]

/-- Membership after the protection pass: with duplicate-free candidates, a
name survives iff it was a candidate and no watched symlink both reads
successfully and has a target whose basename equals the name.  Whether the
target exists, resolves, or lies inside the releases subfolder plays no
role. -/
theorem protect_mem_iff (fs : FS) (path : Path) (r : String) :
    ∀ (sds cands : List String), cands.Nodup →
      (r ∈ protect fs path sds cands ↔
        r ∈ cands ∧ ∀ name ∈ sds, ∀ t, fs.readlink (path ++ [name]) = some t →
          basename t ≠ r)
  | [], cands, _ => by simp [protect]
  | name :: rest, cands, h => by
    cases hrl : fs.readlink (path ++ [name]) with
    | none =>
      have step : protect fs path (name :: rest) cands = protect fs path rest cands := by
        simp [protect, hrl]
      rw [step, protect_mem_iff fs path r rest cands h]
      simp [hrl]
    | some t =>
      have step : protect fs path (name :: rest) cands
          = protect fs path rest (cands.erase (basename t)) := by
        simp [protect, hrl]
      rw [step, protect_mem_iff fs path r rest (cands.erase (basename t)) (h.erase _),
        h.mem_erase_iff]
      simp only [List.forall_mem_cons, hrl, Option.some.injEq]
      constructor
      · rintro ⟨⟨hne, hmem⟩, hrest⟩
        exact ⟨hmem, fun t' ht' => ht' ▸ fun he => hne he.symm, hrest⟩
      · rintro ⟨hmem, hname, hrest⟩
        exact ⟨⟨fun he => hname t rfl he.symm, hmem⟩, hrest⟩

/-- Looking up a key just written by `dictSet` yields the written value. -/
theorem dictGet_dictSet_self (d : List (String × Option Path)) (k : String)
    (v : Option Path) : dictGet (dictSet d k v) k = some v := by
  unfold dictGet dictSet
  rw [List.find?_cons_of_pos _ (by simp)]
  rfl

/-- `dictSet` leaves the bindings of other keys unchanged. -/
theorem dictGet_dictSet_ne (d : List (String × Option Path)) (k k' : String)
    (v : Option Path) (h : k' ≠ k) : dictGet (dictSet d k v) k' = dictGet d k' := by
  unfold dictGet dictSet
  rw [List.find?_cons_of_neg _ (by simp [h.symm])]
  induction d with
  | nil => rfl
  | cons e es ih =>
    by_cases he : e.1 = k
    · rw [List.filter_cons_of_neg (by simp [he]),
        List.find?_cons_of_neg _ (by simp [he, h.symm]), ih]
    · by_cases he' : e.1 = k'
      · rw [List.filter_cons_of_pos (by simp [he]),
          List.find?_cons_of_pos _ (by simp [he']),
          List.find?_cons_of_pos _ (by simp [he'])]
      · rw [List.filter_cons_of_pos (by simp [he]),
          List.find?_cons_of_neg _ (by simp [he']),
          List.find?_cons_of_neg _ (by simp [he']), ih]

/-- Names not in the processed list keep their binding through the
symlink-gathering fold. -/
theorem gather_preserves (fs : FS) (path : Path) (l : List String)
    (acc : List (String × Option Path)) (name : String) (h : name ∉ l) :
    dictGet (l.foldl (fun a n => dictSet a n (fs.readlink (path ++ [n]))) acc) name
      = dictGet acc name := by
  induction l generalizing acc with
  | nil => rfl
  | cons n rest ih =>
    rw [List.foldl_cons, ih _ (fun hm => h (List.mem_cons_of_mem _ hm)),
      dictGet_dictSet_ne _ _ _ _ (fun he => h (by rw [he]; exact List.mem_cons_self _ _))]

/-- Every name processed by the symlink-gathering fold ends bound to its
own `readlink` result. -/
theorem gather_get (fs : FS) (path : Path) (l : List String)
    (acc : List (String × Option Path)) (name : String) (h : name ∈ l) :
    dictGet (l.foldl (fun a n => dictSet a n (fs.readlink (path ++ [n]))) acc) name
      = some (fs.readlink (path ++ [name])) := by
  induction l generalizing acc with
  | nil => cases h
  | cons n rest ih =>
    rw [List.foldl_cons]
    by_cases hn : name ∈ rest
    · exact ih _ hn
    · have hne : name = n := by
        rcases List.mem_cons.mp h with h1 | h2
        · exact h1
        · exact absurd h2 hn
      subst hne
      rw [gather_preserves fs path rest _ name hn, dictGet_dictSet_self]

/-- `gatherSymlinks` binds every watched name to its `readlink` result. -/
theorem gatherSymlinks_get (fs : FS) (path : Path) (sds : List String)
    (name : String) (h : name ∈ sds) :
    dictGet (gatherSymlinks fs path sds) name
      = some (fs.readlink (path ++ [name])) :=
  gather_get fs path sds [] name h

/-- Appending new table entries never changes a lookup that already
succeeds. -/
theorem lookupPath_append_of_some (l : List (Path × Node)) (p : Path) (n : Node) :
    ∀ es : List (Path × Node), lookupPath es p = some n →
      lookupPath (es ++ l) p = some n
  | [], h => by cases h
  | e :: es, h => by
    rw [List.cons_append]
    simp only [lookupPath] at h ⊢
    by_cases he : e.1 = p
    · rw [if_pos he] at h ⊢
      exact h
    · rw [if_neg he] at h ⊢
      exact lookupPath_append_of_some l p n es h

/-- Appending new entries never changes `find` on an existing path. -/
theorem find_append_of_some (fs : FS) (l : List (Path × Node)) (p : Path)
    (n : Node) (h : fs.find p = some n) :
    (FS.mk (fs.entries ++ l)).find p = some n :=
  lookupPath_append_of_some l p n fs.entries h

/-- Appending new entries never changes a symlink resolution that already
succeeds. -/
theorem resolve_append_of_some (fs : FS) (l : List (Path × Node)) :
    ∀ (fuel : Nat) (p : Path) (n : Node), fs.resolve fuel p = some n →
      (FS.mk (fs.entries ++ l)).resolve fuel p = some n
  | 0, _, _, h => by simp [FS.resolve] at h
  | fuel + 1, p, n, h => by
    simp only [FS.resolve] at h ⊢
    cases hf : fs.find p with
    | none => rw [hf] at h; cases h
    | some m =>
      rw [hf] at h
      rw [find_append_of_some fs l p m hf]
      cases m with
      | dir => exact h
      | file => exact h
      | link t => exact resolve_append_of_some fs l fuel t n h

/-- Resolution of a path with no node fails at once. -/
theorem resolve_find_none (fs : FS) (fuel : Nat) (p : Path)
    (h : fs.find p = none) : fs.resolve (fuel + 1) p = none := by
  simp only [FS.resolve]
  rw [h]

/-- A path that `os.path.exists` reports has a node in the table. -/
theorem find_isSome_of_pexists (fs : FS) (p : Path) (h : fs.pexists p = true) :
    ∃ n, fs.find p = some n := by
  cases hf : fs.find p with
  | some n => exact ⟨n, rfl⟩
  | none =>
    unfold FS.pexists at h
    rw [show maxSymlinkHops = 39 + 1 from rfl, resolve_find_none fs 39 p hf] at h
    simp at h

/-! ### Claim theorems -/

/-- Claim C1 (the code violates it): a dry-run create invocation on an
empty filesystem reports the intended change, but also creates the base
path, the releases subfolder and the release directory, because
`os.makedirs` at line 227 of the source is not guarded by check mode.  So
dry-run does not leave the filesystem tree unchanged. -/
theorem dry_run_create_mutates_filesystem :
    (pyMain dryRunCreateParams emptyFS).2
        = Outcome.ok
            { changed := true
              removed_releases := []
              absolute_path := ["app"]
              symlinked_folders := []
              releases := []
              releases_path := ["app", "releases"] } ∧
      (pyMain dryRunCreateParams emptyFS).1.find
          ["app", "releases", "release-20240101090000"] = some Node.dir ∧
      (pyMain dryRunCreateParams emptyFS).1 ≠ emptyFS := by
  decide

/-- Claim C2 (the code violates it): a non-dry-run create invocation
without a `symlink` parameter does create the release directory, but then
crashes with `UnboundLocalError` instead of returning successfully,
because the unlink/symlink block at lines 240-247 of the source sits
outside `if symlink:` and reads the never-assigned local `symlink_dir`. -/
theorem create_without_symlink_crashes :
    (pyMain createNoSymlinkParams emptyFS).2
        = Outcome.crash "UnboundLocalError: symlink_dir" ∧
      (pyMain createNoSymlinkParams emptyFS).1.find
          ["app", "releases", "release-20240202101010"] = some Node.dir := by
  decide

/-- Claim C3, counterexample: the watched symlink `current` points at
`/elsewhere/release-1` — outside the releases subfolder and broken — yet
with `keep = 0` the clean removes nothing: the code protects `release-1`
purely by the basename of the raw link target, contradicting the claim
that such a symlink protects nothing. -/
theorem outside_symlink_protects_release :
    (pyMain cleanProtectParams outsideLinkFS).2
        = Outcome.ok
            { changed := false
              removed_releases := []
              absolute_path := ["app"]
              symlinked_folders := [("current", some ["elsewhere", "release-1"])]
              releases := ["release-1"]
              releases_path := ["app", "releases"] } ∧
      (pyMain cleanProtectParams outsideLinkFS).1.find
          ["app", "releases", "release-1"] = some Node.dir := by
  decide

/-- Claim C3 (amended): with duplicate-free candidates, a release stays a
removal candidate iff no watched symlink both reads successfully and has a
raw target whose basename equals the release name; whether the target
resolves, exists, or lies inside the releases subfolder is never
checked, so a broken or outside-pointing symlink with a matching basename
does protect the release. -/
theorem protection_ignores_target_location (fs : FS) (path : Path)
    (sds cands : List String) (r : String) (hnd : cands.Nodup) :
    r ∈ protect fs path sds cands ↔
      r ∈ cands ∧ ∀ name ∈ sds, ∀ t, fs.readlink (path ++ [name]) = some t →
        basename t ≠ r :=
  protect_mem_iff fs path r sds cands hnd

/-- Witness for the amended claim C3 at a concrete input. -/
theorem protection_ignores_target_location_witness :
    ("release-1" ∈ protect outsideLinkFS ["app"] ["current"] ["release-1", "release-9"] ↔
      "release-1" ∈ ["release-1", "release-9"] ∧
        ∀ name ∈ ["current"], ∀ t,
          outsideLinkFS.readlink (["app"] ++ [name]) = some t →
            basename t ≠ "release-1") :=
  protection_ignores_target_location outsideLinkFS ["app"] ["current"]
    ["release-1", "release-9"] "release-1" (by decide)

/-- Claim C4, counterexample: a create invocation with a missing timestamp
fails with the configuration error only after structural setup has already
created `/app` and `/app/releases` (lines 163-167 of the source run before
the timestamp check at line 210), so the failing invocation has created
directories. -/
theorem timestamp_checked_after_directory_creation :
    (pyMain missingTimestampParams emptyFS).2
        = Outcome.failed "Invalid timestamp parameter" ∧
      (pyMain missingTimestampParams emptyFS).1.find ["app", "releases"]
        = some Node.dir ∧
      (pyMain missingTimestampParams emptyFS).1 ≠ emptyFS := by
  decide

/-- Claim C4 (amended): the configuration errors that are checked early —
a non-string prefix and a negative keep count — are reported before any
filesystem access, leaving the filesystem untouched; the timestamp check
is not among them. -/
theorem early_config_errors_no_fs_access (pr : Params) (fs : FS)
    (h : pr.pfx = none ∨ pr.keep < 0) :
    (pyMain pr fs).1 = fs ∧ ∃ m, (pyMain pr fs).2 = Outcome.failed m := by
  rcases h with h | h
  · simp [pyMain, h]
  · cases hp : pr.pfx with
    | none => simp [pyMain, hp]
    | some p => simp [pyMain, hp, h]

/-- Witness for the amended claim C4 at a concrete input. -/
theorem early_config_errors_no_fs_access_witness :
    (pyMain { dryRunCreateParams with keep := -1 } emptyFS).1 = emptyFS ∧
      ∃ m, (pyMain { dryRunCreateParams with keep := -1 } emptyFS).2
        = Outcome.failed m :=
  early_config_errors_no_fs_access { dryRunCreateParams with keep := -1 } emptyFS
    (Or.inr (by decide))

/-- Claim C5: a directory entry of the releases subfolder appears in the
enumerated release set iff its name starts with the prefix, it is a
directory, and it is not a symlink.  Enumeration is side-effect free by
construction (`get_releases` consumes the filesystem and returns only a
list of names). -/
theorem enumeration_filter_iff (fs : FS) (path : Path) (sub pfx name : String) :
    name ∈ get_releases fs path sub pfx ↔
      name ∈ fs.listdir (path ++ [sub]) ∧ strStartsWith name pfx = true ∧
        fs.isdir (path ++ [sub, name]) = true ∧
        fs.islink (path ++ [sub, name]) = false := by
  simp [get_releases, List.mem_filter, Bool.and_eq_true, Bool.not_eq_true', and_assoc]

/-- Claim C6: the removal selection is exactly the suffix of the
descending lexicographic sort starting at index `keep`: the sorted list is
a permutation of the candidates, it is sorted descending, everything
removed is bounded by everything kept (the `keep` greatest survive), and
`keep = 0` marks the whole candidate set. -/
theorem clean_retention_order (cands : List String) (k : Nat) :
    selectForRemoval cands k = (sortDescend cands).drop k ∧
      (sortDescend cands).Perm cands ∧
      List.Sorted (fun a b : String => strLe b a = true) (sortDescend cands) ∧
      (∀ x ∈ selectForRemoval cands k, ∀ y ∈ (sortDescend cands).take k,
        strLe x y = true) ∧
      (selectForRemoval cands 0).Perm cands := by
  haveI ht : IsTotal String (fun a b : String => strLe b a = true) :=
    ⟨fun a b => listLeB_total b.data a.data⟩
  haveI htr : IsTrans String (fun a b : String => strLe b a = true) :=
    ⟨fun _ _ _ h1 h2 => listLeB_trans _ _ _ h2 h1⟩
  have hsorted : List.Sorted (fun a b : String => strLe b a = true) (sortDescend cands) :=
    List.sorted_insertionSort _ _
  refine ⟨rfl, List.perm_insertionSort _ _, hsorted, ?_, ?_⟩
  · intro x hx y hy
    have hs2 := hsorted
    rw [← List.take_append_drop k (sortDescend cands)] at hs2
    exact (List.pairwise_append.mp hs2).2.2 y hy x hx
  · have : selectForRemoval cands 0 = sortDescend cands := by
      simp [selectForRemoval]
    rw [this]
    exact List.perm_insertionSort _ _

/-- Claim C7: in the specification's protection scenario (releases
`release-1`, `release-2`, `release-3`, symlink `current` resolving to
`release-2` inside the releases subfolder, `keep = 0`, protection on),
cleaning removes exactly `release-1` and `release-3` and leaves
`release-2` and the symlink intact. -/
theorem protection_scenario_exact :
    (pyMain cleanProtectParams protectScenarioFS).2
        = Outcome.ok
            { changed := true
              removed_releases := ["release-3", "release-1"]
              absolute_path := ["app"]
              symlinked_folders := [("current", some ["app", "releases", "release-2"])]
              releases := ["release-2"]
              releases_path := ["app", "releases"] } ∧
      (pyMain cleanProtectParams protectScenarioFS).1
        = ⟨[(["app"], Node.dir), (["app", "releases"], Node.dir),
            (["app", "releases", "release-2"], Node.dir),
            (["app", "current"], Node.link ["app", "releases", "release-2"])]⟩ := by
  decide

/-- Claim C8 (the code violates it): running create twice with the same
timestamp and no `symlink` parameter crashes both times with
`UnboundLocalError` (lines 240-247 of the source run outside
`if symlink:`), instead of returning `changed = true` twice; the release
directory does get created by the first run and survives the second. -/
theorem create_twice_without_symlink_crashes :
    (pyMain createTwiceParams emptyFS).2
        = Outcome.crash "UnboundLocalError: symlink_dir" ∧
      (pyMain createTwiceParams emptyFS).1.find
          ["srv", "releases", "release-20240404"] = some Node.dir ∧
      (pyMain createTwiceParams (pyMain createTwiceParams emptyFS).1).2
        = Outcome.crash "UnboundLocalError: symlink_dir" ∧
      (pyMain createTwiceParams (pyMain createTwiceParams emptyFS).1).1
        = (pyMain createTwiceParams emptyFS).1 := by
  decide

/-- Claim C9: whatever the mode, a create invocation with a non-empty
timestamp and symlink name whose `basePath/symlink` exists but is not a
symlink fails with the conflict message, leaving every pre-existing node —
in particular the file occupying the symlink path — exactly as it was.
Both cases of the claim are covered: a fresh timestamp (no node at the
release path, the releases-path ancestors well formed, so `os.makedirs`
first creates the release directory and only then the conflict fires) and
a re-run (release directory already present, where nothing at all is
changed). -/
theorem create_symlink_conflict (fs : FS) (base : Path) (sub pfx ts s : String)
    (sds : List String) (keep : Int) (ksd cm : Bool)
    (hts : ts ≠ "") (hs : s ≠ "") (hkeep : ¬keep < 0)
    (hbase : fs.pexists base = true)
    (hsub : fs.pexists (base ++ [sub]) = true)
    (hsd : fs.pexists (base ++ [s]) = true)
    (hsl : fs.islink (base ++ [s]) = false)
    (hrd : (fs.pexists (base ++ [sub, pfx ++ ts]) = true ∧
              fs.isdir (base ++ [sub, pfx ++ ts]) = true) ∨
           (fs.find (base ++ [sub, pfx ++ ts]) = none ∧
              ∀ q ∈ initialsOf (base ++ [sub]), fs.find q ≠ none →
                fs.find q = some Node.dir)) :
    (pyMain
        { path := base
          pfx := some pfx
          subfolder := sub
          keep := keep
          keep_symlinked_dirs := ksd
          symlink_dirs := sds
          state := some "exists"
          timestamp := some ts
          symlink := some s
          check_mode := cm } fs).2
      = Outcome.failed
          ("Symlink exists but is not a symlink: " ++ pathStr (base ++ [s])) ∧
    (∀ p n, fs.find p = some n →
      (pyMain
        { path := base
          pfx := some pfx
          subfolder := sub
          keep := keep
          keep_symlinked_dirs := ksd
          symlink_dirs := sds
          state := some "exists"
          timestamp := some ts
          symlink := some s
          check_mode := cm } fs).1.find p = some n) ∧
    (pyMain
        { path := base
          pfx := some pfx
          subfolder := sub
          keep := keep
          keep_symlinked_dirs := ksd
          symlink_dirs := sds
          state := some "exists"
          timestamp := some ts
          symlink := some s
          check_mode := cm } fs).1.find (base ++ [s]) = fs.find (base ++ [s]) ∧
    (fs.pexists (base ++ [sub, pfx ++ ts]) = true →
      (pyMain
        { path := base
          pfx := some pfx
          subfolder := sub
          keep := keep
          keep_symlinked_dirs := ksd
          symlink_dirs := sds
          state := some "exists"
          timestamp := some ts
          symlink := some s
          check_mode := cm } fs).1 = fs) := by
  obtain ⟨n0, hfn0⟩ := find_isSome_of_pexists fs (base ++ [s]) hsd
  rcases hrd with ⟨hrd1, hrd2⟩ | ⟨hfind, hanc⟩
  · have hmain : pyMain
        { path := base
          pfx := some pfx
          subfolder := sub
          keep := keep
          keep_symlinked_dirs := ksd
          symlink_dirs := sds
          state := some "exists"
          timestamp := some ts
          symlink := some s
          check_mode := cm } fs
        = (fs, Outcome.failed
            ("Symlink exists but is not a symlink: " ++ pathStr (base ++ [s]))) := by
      cases cm <;>
        simp [pyMain, createOp, ensure_dir, hts, hs, hkeep, hbase, hsub, hrd1,
          hrd2, hsd, hsl]
    rw [hmain]
    exact ⟨rfl, fun p n h => h, rfl, fun _ => rfl⟩
  · -- the fresh-timestamp case: `os.makedirs` runs first
    have hex : fs.pexists (base ++ [sub, pfx ++ ts]) = false := by
      unfold FS.pexists
      rw [show maxSymlinkHops = 39 + 1 from rfl,
        resolve_find_none fs 39 (base ++ [sub, pfx ++ ts]) hfind]
      rfl
    have hdl : (base ++ [sub, pfx ++ ts]).dropLast = base ++ [sub] := by
      have : base ++ [sub, pfx ++ ts] = (base ++ [sub]) ++ [pfx ++ ts] := by simp
      rw [this, List.dropLast_concat]
    have hany : (initialsOf (base ++ [sub, pfx ++ ts]).dropLast).any (fun q =>
        match fs.find q with
        | some Node.dir => false
        | some _ => true
        | none => false) = false := by
      rw [hdl]
      rw [List.any_eq_false]
      intro q hq
      cases hfq : fs.find q with
      | none => simp
      | some m =>
        have hdir := hanc q hq (by simp [hfq])
        rw [hfq] at hdir
        cases Option.some.injEq .. ▸ hdir
        simp
    have hmk : fs.makedirs (base ++ [sub, pfx ++ ts])
        = Except.ok (FS.mk (fs.entries
            ++ ((initialsOf (base ++ [sub, pfx ++ ts])).filter
                  (fun q => (fs.find q).isNone)).map (fun q => (q, Node.dir)))) := by
      unfold FS.makedirs
      rw [hfind, hany]
      simp
    generalize hL : ((initialsOf (base ++ [sub, pfx ++ ts])).filter
        (fun q => (fs.find q).isNone)).map (fun q => (q, Node.dir)) = L at hmk
    have hfn1 : (FS.mk (fs.entries ++ L)).find (base ++ [s]) = some n0 :=
      find_append_of_some fs L (base ++ [s]) n0 hfn0
    have hsd1 : (FS.mk (fs.entries ++ L)).pexists (base ++ [s]) = true := by
      unfold FS.pexists at hsd ⊢
      obtain ⟨m, hm⟩ := Option.isSome_iff_exists.mp hsd
      rw [resolve_append_of_some fs L maxSymlinkHops (base ++ [s]) m hm]
      rfl
    have hsl1 : (FS.mk (fs.entries ++ L)).islink (base ++ [s]) = false := by
      unfold FS.islink at hsl ⊢
      rw [hfn0] at hsl
      rw [hfn1]
      exact hsl
    have hmain : pyMain
        { path := base
          pfx := some pfx
          subfolder := sub
          keep := keep
          keep_symlinked_dirs := ksd
          symlink_dirs := sds
          state := some "exists"
          timestamp := some ts
          symlink := some s
          check_mode := cm } fs
        = (FS.mk (fs.entries ++ L), Outcome.failed
            ("Symlink exists but is not a symlink: " ++ pathStr (base ++ [s]))) := by
      cases cm <;>
        simp [pyMain, createOp, ensure_dir, hts, hs, hkeep, hbase, hsub, hex,
          hmk, hsd1, hsl1]
    rw [hmain]
    refine ⟨rfl, fun p n h => find_append_of_some fs L p n h, ?_, ?_⟩
    · rw [hfn1, hfn0]
    · intro hc
      rw [hex] at hc
      cases hc

/-- Witness for claim C9 at a concrete input, in the fresh-timestamp case:
the release directory does not exist yet when the conflict fires. -/
theorem create_symlink_conflict_witness :
    (pyMain conflictParams conflictFS).2
        = Outcome.failed
            ("Symlink exists but is not a symlink: " ++ pathStr (["app"] ++ ["current"])) ∧
      (∀ p n, conflictFS.find p = some n →
        (pyMain conflictParams conflictFS).1.find p = some n) ∧
      (pyMain conflictParams conflictFS).1.find (["app"] ++ ["current"])
        = conflictFS.find (["app"] ++ ["current"]) ∧
      (conflictFS.pexists (["app"] ++ ["releases", "release-" ++ "20240101"]) = true →
        (pyMain conflictParams conflictFS).1 = conflictFS) :=
  create_symlink_conflict conflictFS ["app"] "releases" "release-" "20240101"
    "current" [] 5 true false (by decide) (by decide) (by decide) (by decide)
    (by decide) (by decide) (by decide) (Or.inr ⟨by decide, by decide⟩)

/-- Claim C10: a non-empty `symlink` parameter is always among the
effective watched names, the report maps it to its `readlink` result
(target, or `none` on resolution failure), and — because the same watched
list feeds the protection pass of the clean operation — a successful read
of that symlink excludes its target's basename from the removal
candidates. -/
theorem symlink_param_is_watched (fs : FS) (path : Path)
    (sds cands : List String) (s : String) (hs : s ≠ "") (hnd : cands.Nodup) :
    s ∈ effectiveSymlinkDirs sds (some s) ∧
      dictGet (gatherSymlinks fs path (effectiveSymlinkDirs sds (some s))) s
        = some (fs.readlink (path ++ [s])) ∧
      ∀ t, fs.readlink (path ++ [s]) = some t →
        basename t ∉ protect fs path (effectiveSymlinkDirs sds (some s)) cands := by
  have hmem : s ∈ effectiveSymlinkDirs sds (some s) := by
    unfold effectiveSymlinkDirs
    by_cases hc : s ∈ sds
    · simp [hc]
    · simp [hs, hc]
  refine ⟨hmem, gatherSymlinks_get fs path _ s hmem, ?_⟩
  intro t ht hmem2
  have hch := (protect_mem_iff fs path (basename t)
    (effectiveSymlinkDirs sds (some s)) cands hnd).mp hmem2
  exact hch.2 s hmem t ht rfl

/-- Witness for claim C10 at a concrete input. -/
theorem symlink_param_is_watched_witness :
    "current" ∈ effectiveSymlinkDirs [] (some "current") ∧
      dictGet (gatherSymlinks protectScenarioFS ["app"]
          (effectiveSymlinkDirs [] (some "current"))) "current"
        = some (protectScenarioFS.readlink (["app"] ++ ["current"])) ∧
      ∀ t, protectScenarioFS.readlink (["app"] ++ ["current"]) = some t →
        basename t ∉ protect protectScenarioFS ["app"]
          (effectiveSymlinkDirs [] (some "current")) ["release-2", "release-9"] :=
  symlink_param_is_watched protectScenarioFS ["app"] [] ["release-2", "release-9"]
    "current" (by decide) (by decide)

end ReleaseFolder
